import Mathlib

/-!
The condition-triggered wait of nocalhost, `pkg/nhctl/k8sutils/utils.go`.

A shallow embedding of `WaitPod`, `WaitResource`, `GetObjectMetaData` and
`GetNamespaceAndNameFromObjectMeta`, with the closures that `WaitResource`
builds (`optionsModifier`, `preConditionFunc`, `conditionFunc`) as definitions
of their own.

Conventions of the embedding.

* A Go function value that may fail to return (a failed type assertion, a nil
  dereference) is a function into `Option`: `none` stands for the panic.
* A Go `error` result is an `Option Error`: `none` stands for `nil`.
* The collaborators (discovery, scheme, list/watch getter, JSON codec) are
  explicit arguments; every call made to them is recorded, in order, in the
  `calls` field of a run.
* Time is a logical clock that starts with the call: the answer to a list request
  and the events of a watch stream are time-stamped, and what reaches a wait is
  what is stamped before its deadline.
-/

namespace K8sutils

/-! ## Data model -/

/-- The three error classes of the wait (`ResolutionError`, `TimeoutError`,
`TransportError`), each error carrying its message. -/
inductive Error where
  | ResolutionError (message : String)
  | TimeoutError
  | TransportError (message : String)
  deriving DecidableEq, Repr

/-- The type `schema.GroupKind`. -/
structure GroupKind where
  Group : String
  Kind : String
  deriving DecidableEq, Repr

/-- The type `schema.GroupVersion`. -/
structure GroupVersion where
  Group : String
  Version : String
  deriving DecidableEq, Repr

/-- The type `schema.GroupVersionKind`. -/
structure GroupVersionKind where
  Group : String
  Version : String
  Kind : String
  deriving DecidableEq, Repr

/-- The method `gvk.GroupKind()`. -/
def GroupVersionKind.GroupKind (gvk : GroupVersionKind) : GroupKind :=
  { Group := gvk.Group, Kind := gvk.Kind }

/-- The method `gv.WithKind(kind)`. -/
def GroupVersion.WithKind (gv : GroupVersion) (kind : String) : GroupVersionKind :=
  { Group := gv.Group, Version := gv.Version, Kind := kind }

/-- The value `corev1.SchemeGroupVersion`: the core group (empty name), version `v1`. -/
def SchemeGroupVersion : GroupVersion :=
  { Group := "", Version := "v1" }

/-- The type `v1.ListOptions` (apimachinery v0.21): the inlined `TypeMeta` and the
list/watch request fields. -/
structure ListOptions where
  Kind : String
  APIVersion : String
  LabelSelector : String
  FieldSelector : String
  Watch : Bool
  AllowWatchBookmarks : Bool
  ResourceVersion : String
  ResourceVersionMatch : String
  TimeoutSeconds : Option Int
  Limit : Int
  Continue : String
  deriving DecidableEq, Repr

/-- The zero value `v1.ListOptions{}`. -/
def ListOptions.zero : ListOptions :=
  { Kind := "", APIVersion := "", LabelSelector := "", FieldSelector := "",
    Watch := false, AllowWatchBookmarks := false, ResourceVersion := "",
    ResourceVersionMatch := "", TimeoutSeconds := none, Limit := 0, Continue := "" }

/-- A `*corev1.Pod`, reduced to its identity and its phase. -/
structure Pod where
  Namespace : String
  Name : String
  Phase : String
  deriving DecidableEq, Repr

/-- A value of type `interface{}` as the wait sees it: a Pod, a `*metav1.Status`
(the payload of an `Error` event), or an object of some other kind. -/
inductive Obj where
  | Pod (pod : Pod)
  | Status (message : String)
  | Other (kind : String) (name : String) (state : String)
  deriving DecidableEq, Repr

/-- The type `watch.EventType`. -/
inductive EventType where
  | Added
  | Modified
  | Deleted
  | Bookmark
  | Error
  deriving DecidableEq, Repr

/-- The type `watch.Event`; `Type_` is its field `Type`. -/
structure Event where
  Type_ : EventType
  Object : Obj
  deriving DecidableEq, Repr

/-- Modelled from the spec: the error an `Error` event carries (its error payload; the
decoding of the payload is apimachinery code, not in the source file). It is the
message of the `Status` payload, as a `TransportError`; an event with another
payload carries the description of that payload. -/
def Event.carriedError (e : Event) : Error :=
  match e.Object with
  | .Status message => .TransportError message
  | .Pod pod => .TransportError ("unexpected object " ++ pod.Name)
  | .Other _ name _ => .TransportError ("unexpected object " ++ name)

/-- An event of a watch stream with the logical time at which it is delivered. -/
structure TimedEvent where
  time : Nat
  event : Event
  deriving DecidableEq, Repr

/-- The answer of a list call: the logical time at which it arrives, and the objects
and the resource version of the snapshot. -/
structure ObjectList where
  time : Nat
  ResourceVersion : String
  Items : List Obj
  deriving DecidableEq, Repr

/-- The list/watch capability of a `cache.Getter`, per resource, namespace and
request options. -/
structure Getter where
  list : String → String → ListOptions → ObjectList
  watch : String → String → ListOptions → List TimedEvent

/-- One resource of a discovery document (`v1.APIResource`): plural name and kind. -/
structure APIResource where
  Name : String
  Kind : String
  deriving DecidableEq, Repr

/-- The type `restmapper.APIGroupResources`: a group and its resources per version. -/
structure APIGroupResources where
  Group : String
  VersionedResources : List (String × List APIResource)
  deriving DecidableEq, Repr

/-- The type `schema.GroupVersionResource`. -/
structure GroupVersionResource where
  Group : String
  Version : String
  Resource : String
  deriving DecidableEq, Repr

/-- The type `meta.RESTMapping`. -/
structure RESTMapping where
  Resource : GroupVersionResource
  GroupVersionKind : GroupVersionKind
  deriving DecidableEq, Repr

/-- The part of `*kubernetes.Clientset` the wait uses: the answer of
`restmapper.GetAPIGroupResources(client)` (group resources and error, as the Go
function returns them) and the REST client of `client.CoreV1()`. -/
structure Clientset where
  GetAPIGroupResources : List APIGroupResources × Option Error
  CoreV1RESTClient : Getter

/-- The global `scheme.Scheme` of kubectl: `New` builds an empty object of a
registered kind and fails on a kind that is not registered. -/
structure Scheme where
  New : GroupVersionKind → Except Error Obj

/-- A call to a collaborator, or an evaluation of one of the two closures that
hold the only calls of the predicate (`preConditionFunc`, `conditionFunc`). -/
inductive Call where
  | Discovery
  | RESTMapping (gk : GroupKind) (version : String)
  | NewListWatch (resource : String) (ns : String)
  | SchemeNew (gvk : GroupVersionKind)
  | List (resource : String) (ns : String) (options : ListOptions)
  | Watch (resource : String) (ns : String) (options : ListOptions)
  | PreCondition (store : List Obj)
  | Condition (e : Event)
  deriving DecidableEq, Repr

/-- Whether the call is a list call to the event source. -/
def Call.isList : Call → Bool
  | .List _ _ _ => true
  | _ => false

/-- Whether the call opens a watch subscription. -/
def Call.isWatch : Call → Bool
  | .Watch _ _ _ => true
  | _ => false

/-- Whether the call evaluates the per-event condition. -/
def Call.isCondition : Call → Bool
  | .Condition _ => true
  | _ => false

/-- Whether the call evaluates one of the closures that call the predicate. -/
def Call.callsChecker : Call → Bool
  | .PreCondition _ => true
  | .Condition _ => true
  | _ => false

/-- Whether the call constructs the list/watch source. -/
def Call.isNewListWatch : Call → Bool
  | .NewListWatch _ _ => true
  | _ => false

/-- How a Go call ends: it returns its `error` result (`none` is `nil`), or it panics. -/
inductive Outcome where
  | returned (err : Option Error)
  | panicked
  deriving DecidableEq, Repr

/-- The result `(*watch.Event, error)` of the list-then-watch driver with the calls it made. -/
structure Until where
  calls : List Call
  event : Option Event
  result : Outcome
  deriving DecidableEq, Repr

/-- A run of `WaitResource`: the calls made, in order, and how the call ended. -/
structure Run where
  calls : List Call
  result : Outcome
  deriving DecidableEq, Repr

/-! ## Collaborators that are not part of the source file -/

/-- Modelled from the spec: the Type Resolver (`restmapper.NewDiscoveryRESTMapper`
and its `RESTMapping` method, client-go code that is not in the source file).
Given group, kind and version it returns the descriptor of the matching
registered type of the discovery snapshot (with its plural resource name) or
fails with `ResolutionError` when no matching registered type exists. -/
def DiscoveryRESTMapper.RESTMapping (groupResources : List APIGroupResources)
    (gk : GroupKind) (version : String) : Except Error RESTMapping :=
  match groupResources.find? (fun g => g.Group == gk.Group) with
  | none => .error (.ResolutionError ("no matches for kind " ++ gk.Kind ++ " in group " ++ gk.Group))
  | some g =>
    match g.VersionedResources.find? (fun vr => vr.1 == version) with
    | none => .error (.ResolutionError ("no matches for kind " ++ gk.Kind ++ " in version " ++ version))
    | some vr =>
      match vr.2.find? (fun r => r.Kind == gk.Kind) with
      | none => .error (.ResolutionError ("no matches for kind " ++ gk.Kind ++ " in version " ++ version))
      | some r =>
        .ok { Resource := { Group := gk.Group, Version := version, Resource := r.Name },
              GroupVersionKind := { Group := gk.Group, Version := version, Kind := gk.Kind } }

/-- The list/watch source built by `cache.NewFilteredListWatchFromClient`: the getter,
the resource, the namespace and the options modifier it was given. -/
structure ListWatch where
  getter : Getter
  resource : String
  ns : String
  optionsModifier : ListOptions → ListOptions

/-- Modelled from the spec: `cache.NewFilteredListWatchFromClient` (client-go code that
is not in the source file). It only stores its arguments; the selectors reach the
event source through the options modifier, which runs on the options of every request. -/
def NewFilteredListWatchFromClient (g : Getter) (resource : String) (ns : String)
    (optionsModifier : ListOptions → ListOptions) : ListWatch :=
  { getter := g, resource := resource, ns := ns, optionsModifier := optionsModifier }

/-- The options of the list request of a source: the zero options through the modifier. -/
def ListWatch.listOptions (lw : ListWatch) : ListOptions :=
  lw.optionsModifier ListOptions.zero

/-- The options of the watch request of a source: the subscription starts from the
resource version of the list. -/
def ListWatch.watchOptions (lw : ListWatch) (resourceVersion : String) : ListOptions :=
  lw.optionsModifier { ListOptions.zero with ResourceVersion := resourceVersion }

/-- The events of a stream that are delivered before the deadline, in the order of the stream. -/
def delivered (timeout : Nat) (stream : List TimedEvent) : List Event :=
  (stream.takeWhile (fun te => decide (te.time < timeout))).map (fun te => te.event)

/-- The answer of the event source to the list request of a source. -/
def ListWatch.snapshot (lw : ListWatch) : ObjectList :=
  lw.getter.list lw.resource lw.ns lw.listOptions

/-- The events the subscription of a source delivers before the deadline. -/
def ListWatch.events (lw : ListWatch) (timeout : Nat) : List Event :=
  delivered timeout (lw.getter.watch lw.resource lw.ns (lw.watchOptions lw.snapshot.ResourceVersion))

/-- Modelled from the spec: the event loop of the Condition Watcher (step 5 of its
algorithm; `toolswatch.UntilWithoutRetry` of client-go, not in the source file).
Events are taken in the order delivered. An `Error` event terminates the wait with
the carried error. To an event of any other kind the condition function is
applied: an error of the condition ends the wait with that error, `true` ends it
in success with that event as last event, `false` lets the wait go on. When the
delivered events are used up the deadline has expired: `TimeoutError`, with the
last event seen. -/
def UntilWithoutRetry (condition : Event → Option (Bool × Option Error)) :
    List Event → Option Event → Until
  | [], lastEvent => { calls := [], event := lastEvent, result := .returned (some .TimeoutError) }
  | e :: es, _ =>
    if e.Type_ = EventType.Error then
      { calls := [], event := some e, result := .returned (some e.carriedError) }
    else
      match condition e with
      | none => { calls := [.Condition e], event := some e, result := .panicked }
      | some (_, some err) =>
        { calls := [.Condition e], event := some e, result := .returned (some err) }
      | some (true, none) => { calls := [.Condition e], event := some e, result := .returned none }
      | some (false, none) =>
        let r := UntilWithoutRetry condition es (some e)
        { r with calls := .Condition e :: r.calls }

/-- Modelled from the spec: the list-then-watch driver of the Condition Watcher (steps 1
to 5 of its algorithm; `toolswatch.UntilWithSync` of client-go, not in the source
file). Every blocking operation is tied to the deadline: a list answer that does
not arrive before the deadline is cancelled and the wait ends in `TimeoutError`.
Otherwise the list fills the store; the precondition is evaluated on the store;
if it holds the driver returns success without opening a watch; if not it opens
one subscription from the resource version of the list and runs the event loop on
the events delivered before the deadline. -/
def UntilWithSync (timeout : Nat) (lw : ListWatch)
    (precondition : List Obj → Option (Bool × Option Error))
    (condition : Event → Option (Bool × Option Error)) : Until :=
  let listCall := Call.List lw.resource lw.ns lw.listOptions
  if lw.snapshot.time < timeout then
    let store := lw.snapshot.Items
    let listCalls := [listCall, Call.PreCondition store]
    match precondition store with
    | none => { calls := listCalls, event := none, result := .panicked }
    | some (_, some err) => { calls := listCalls, event := none, result := .returned (some err) }
    | some (true, none) => { calls := listCalls, event := none, result := .returned none }
    | some (false, none) =>
      let options := lw.watchOptions lw.snapshot.ResourceVersion
      let r := UntilWithoutRetry condition (lw.events timeout) none
      { r with calls := listCalls ++ Call.Watch lw.resource lw.ns options :: r.calls }
  else
    { calls := [listCall], event := none, result := .returned (some .TimeoutError) }

/-! ## The source file -/

/-- The options modifier built in `WaitResource` (lines 66-69): the request options
with the label and field selectors of the caller. -/
def WaitResource.optionsModifier (listOptions : ListOptions) (options : ListOptions) : ListOptions :=
  { options with
    LabelSelector := listOptions.LabelSelector
    FieldSelector := listOptions.FieldSelector }

/-- The loop of `preConditionFunc` (lines 75-80): the first object the predicate
rejects gives `(false, nil)`, the end of the list gives `(true, nil)`. -/
def WaitResource.preConditionFunc.loop (checker : Obj → Option Bool) :
    List Obj → Option (Bool × Option Error)
  | [] => some (true, none)
  | p :: ps =>
    match checker p with
    | none => none
    | some false => some (false, none)
    | some true => WaitResource.preConditionFunc.loop checker ps

/-- The closure `preConditionFunc` of `WaitResource` (lines 71-81), on the content of the store. -/
def WaitResource.preConditionFunc (checker : Obj → Option Bool) (store : List Obj) :
    Option (Bool × Option Error) :=
  if store.length = 0 then
    some (false, none)
  else
    WaitResource.preConditionFunc.loop checker store

/-- The closure `conditionFunc` of `WaitResource` (line 88). -/
def WaitResource.conditionFunc (checker : Obj → Option Bool) (e : Event) :
    Option (Bool × Option Error) :=
  match checker e.Object with
  | none => none
  | some b => some (b, none)

/-- The value `watchlist` of `WaitResource` (lines 62-69). -/
def WaitResource.watchlist (g : Getter) (restMapping : RESTMapping) (ns : String)
    (listOptions : ListOptions) : ListWatch :=
  NewFilteredListWatchFromClient g restMapping.Resource.Resource ns
    (WaitResource.optionsModifier listOptions)

/-- The function `WaitResource` (lines 50-96). The deadline is the logical time `timeout`. -/
def WaitResource (scheme : Scheme) (client : Clientset) (g : Getter) (ns : String)
    (gvk : GroupVersionKind) (listOptions : ListOptions) (checker : Obj → Option Bool)
    (timeout : Nat) : Run :=
  let groupResources := client.GetAPIGroupResources.1
  let resolveCalls := [Call.Discovery, Call.RESTMapping gvk.GroupKind gvk.Version]
  match DiscoveryRESTMapper.RESTMapping groupResources gvk.GroupKind gvk.Version with
  | .error err => { calls := resolveCalls, result := .returned (some err) }
  | .ok restMapping =>
    let watchlist := WaitResource.watchlist g restMapping ns listOptions
    let setupCalls := resolveCalls ++
      [Call.NewListWatch restMapping.Resource.Resource ns, Call.SchemeNew gvk]
    match scheme.New gvk with
    | .error err => { calls := setupCalls, result := .returned (some err) }
    | .ok _ =>
      let r := UntilWithSync timeout watchlist (WaitResource.preConditionFunc checker)
        (WaitResource.conditionFunc checker)
      match r.result with
      | .panicked => { calls := setupCalls ++ r.calls, result := .panicked }
      | .returned (some err) => { calls := setupCalls ++ r.calls, result := .returned (some err) }
      | .returned none => { calls := setupCalls ++ r.calls, result := .returned none }

/-- The predicate adapter built in `WaitPod` (line 45): the type assertion
`i.(*corev1.Pod)` panics on an object that is not a Pod. -/
def WaitPod.adapter (checker : Pod → Option Bool) (i : Obj) : Option Bool :=
  match i with
  | .Pod pod => checker pod
  | _ => none

/-- The function `WaitPod` (lines 37-48). -/
def WaitPod (scheme : Scheme) (client : Clientset) (ns : String) (listOptions : ListOptions)
    (checker : Pod → Option Bool) (timeout : Nat) : Run :=
  WaitResource scheme client client.CoreV1RESTClient ns (SchemeGroupVersion.WithKind "Pod")
    listOptions (WaitPod.adapter checker) timeout

/-- The type `metadataOnlyObject` (lines 150-153), reduced to the fields read from it. -/
structure metadataOnlyObject where
  Kind : String
  APIVersion : String
  Namespace : String
  Name : String
  deriving DecidableEq, Repr

/-- The JSON codec returned by `CaseSensitiveJSONIterator()`, for values of type `α`
and documents of type `β`. -/
structure Codec (α β : Type) where
  Marshal : α → Except String β
  Unmarshal : β → Except String metadataOnlyObject

/-- The function `GetObjectMetaData` (lines 132-143): `none` is the nil pointer. -/
def GetObjectMetaData {α β : Type} (caseSensitiveJsonIterator : Codec α β) (obj : α) :
    Option metadataOnlyObject :=
  match caseSensitiveJsonIterator.Marshal obj with
  | .error _ => none
  | .ok marshal =>
    match caseSensitiveJsonIterator.Unmarshal marshal with
    | .error _ => none
    | .ok v => some v

/-- The function `GetNamespaceAndNameFromObjectMeta` (lines 145-148): the fields are
read through the pointer without a nil check, so a nil pointer panics (`none`). -/
def GetNamespaceAndNameFromObjectMeta {α β : Type} (caseSensitiveJsonIterator : Codec α β)
    (obj : α) : Option (String × String × Option Error) :=
  match GetObjectMetaData caseSensitiveJsonIterator obj with
  | none => none
  | some v => some (v.Namespace, v.Name, none)

/-! ## Concrete inputs -/

/-- A scheme in which only the core `v1` kind `Pod` is registered. -/
def podScheme : Scheme :=
  { New := fun gvk =>
      if gvk = { Group := "", Version := "v1", Kind := "Pod" } then
        .ok (.Pod { Namespace := "", Name := "", Phase := "" })
      else
        .error (.ResolutionError ("no kind " ++ gvk.Kind ++ " is registered")) }

/-- The discovery snapshot of a cluster that serves pods in the core group. -/
def coreGroupResources : List APIGroupResources :=
  [{ Group := "", VersionedResources := [("v1", [{ Name := "pods", Kind := "Pod" }])] }]

/-- The kind `Pod` of the core group, version `v1`. -/
def podKind : GroupVersionKind :=
  { Group := "", Version := "v1", Kind := "Pod" }

/-- A pod of namespace `ns1` in a given phase. -/
def podInPhase (phase : String) : Obj :=
  .Pod { Namespace := "ns1", Name := "web-0", Phase := phase }

/-- The predicate `state == "Running"`; an object that is not a Pod does not satisfy it. -/
def isRunning : Obj → Option Bool
  | .Pod pod => some (pod.Phase == "Running")
  | _ => some false

/-- The predicate that holds on every object except a pod in phase `Pending`. -/
def notPending : Obj → Option Bool
  | .Pod pod => some (pod.Phase != "Pending")
  | _ => some true

/-- An event source that lists the given objects, its answer arriving at time 0, and
streams the given events, whatever the request. -/
def fixedGetter (items : List Obj) (stream : List TimedEvent) : Getter :=
  { list := fun _ _ _ => { time := 0, ResourceVersion := "7", Items := items }
    watch := fun _ _ _ => stream }

/-- A client whose discovery answers with the given group resources and error. -/
def clientWith (groupResources : List APIGroupResources) (err : Option Error) : Clientset :=
  { GetAPIGroupResources := (groupResources, err)
    CoreV1RESTClient := fixedGetter [] [] }

/-- The `Error` event of a watch whose resource version is too old. -/
def staleWatchEvent : Event :=
  { Type_ := .Error, Object := .Status "too old resource version" }

/-- The event of the given type for the pod in the given phase. -/
def podEvent (type : EventType) (phase : String) : Event :=
  { Type_ := type, Object := podInPhase phase }

/-- The selectors `app=web` and `status.phase!=Failed` on otherwise zero options. -/
def webSelector : ListOptions :=
  { ListOptions.zero with LabelSelector := "app=web", FieldSelector := "status.phase!=Failed" }

/-- Go values handed to the metadata reader: a channel, a string, and an object with
a namespace and a name in its metadata. -/
inductive GoValue where
  | Chan
  | Str (s : String)
  | Object (ns : String) (name : String)
  deriving DecidableEq, Repr

/-- The JSON documents of the values above: a JSON string, or a JSON object whose
metadata holds a namespace and a name. -/
inductive Document where
  | Str (s : String)
  | Object (ns : String) (name : String)
  deriving DecidableEq, Repr

/-- The codec on these values: `Marshal` rejects a channel (unsupported type);
`Unmarshal` into the metadata struct rejects a document that is not an object. -/
def valueCodec : Codec GoValue Document :=
  { Marshal := fun v =>
      match v with
      | .Chan => .error "chan int is unsupported type"
      | .Str s => .ok (.Str s)
      | .Object ns name => .ok (.Object ns name)
    Unmarshal := fun d =>
      match d with
      | .Str _ => .error "readObjectStart: expect object or null"
      | .Object ns name => .ok { Kind := "", APIVersion := "", Namespace := ns, Name := name } }

/-! ## Lemmas on the closures and on the event loop -/

theorem preConditionFunc_loop_true_iff (checker : Obj → Option Bool) (store : List Obj) :
    WaitResource.preConditionFunc.loop checker store = some (true, none) ↔
      ∀ obj ∈ store, checker obj = some true := by
  induction store with
  | nil => simp [WaitResource.preConditionFunc.loop]
  | cons p ps ih =>
    cases h : checker p with
    | none => simp [WaitResource.preConditionFunc.loop, h]
    | some b =>
      cases b with
      | false => simp [WaitResource.preConditionFunc.loop, h]
      | true => simp [WaitResource.preConditionFunc.loop, h, ih]

theorem preConditionFunc_loop_err (checker : Obj → Option Bool) (store : List Obj)
    (b : Bool) (err : Option Error)
    (h : WaitResource.preConditionFunc.loop checker store = some (b, err)) : err = none := by
  induction store with
  | nil =>
    simp [WaitResource.preConditionFunc.loop] at h
    exact h.2.symm
  | cons p ps ih =>
    cases hp : checker p with
    | none => simp [WaitResource.preConditionFunc.loop, hp] at h
    | some c =>
      cases c with
      | false =>
        simp [WaitResource.preConditionFunc.loop, hp] at h
        exact h.2.symm
      | true =>
        simp only [WaitResource.preConditionFunc.loop, hp] at h
        exact ih h

theorem preConditionFunc_loop_total (c : Obj → Bool) (store : List Obj) :
    WaitResource.preConditionFunc.loop (fun obj => some (c obj)) store =
      some (store.all c, none) := by
  induction store with
  | nil => simp [WaitResource.preConditionFunc.loop]
  | cons p ps ih =>
    cases h : c p with
    | false => simp [WaitResource.preConditionFunc.loop, h]
    | true => simp [WaitResource.preConditionFunc.loop, h, ih]

theorem preConditionFunc_true_iff (checker : Obj → Option Bool) (store : List Obj) :
    WaitResource.preConditionFunc checker store = some (true, none) ↔
      store ≠ [] ∧ ∀ obj ∈ store, checker obj = some true := by
  cases store with
  | nil => simp [WaitResource.preConditionFunc]
  | cons p ps =>
    have hloop := preConditionFunc_loop_true_iff checker (p :: ps)
    simp only [WaitResource.preConditionFunc, List.length_cons, Nat.succ_ne_zero, if_false,
      Nat.add_one_ne_zero]
    simpa using hloop

/-- The event loop passes over events that are not of kind `Error` and on whose
object the predicate is false. -/
theorem UntilWithoutRetry_prefix (checker : Obj → Option Bool) (pre rest : List Event)
    (l : Option Event) (hkinds : ∀ x ∈ pre, x.Type_ ≠ EventType.Error)
    (hpre : ∀ x ∈ pre, checker x.Object = some false) :
    ∃ l', UntilWithoutRetry (WaitResource.conditionFunc checker) (pre ++ rest) l =
      { calls := pre.map Call.Condition ++
          (UntilWithoutRetry (WaitResource.conditionFunc checker) rest l').calls
        event := (UntilWithoutRetry (WaitResource.conditionFunc checker) rest l').event
        result := (UntilWithoutRetry (WaitResource.conditionFunc checker) rest l').result } := by
  induction pre generalizing l with
  | nil => exact ⟨l, by simp⟩
  | cons x xs ih =>
    have hk : x.Type_ ≠ EventType.Error := hkinds x (List.mem_cons_self x xs)
    have hx : checker x.Object = some false := hpre x (List.mem_cons_self x xs)
    obtain ⟨l', hrec⟩ := ih (some x) (fun y hy => hkinds y (List.mem_cons_of_mem x hy))
      (fun y hy => hpre y (List.mem_cons_of_mem x hy))
    refine ⟨l', ?_⟩
    simp only [List.cons_append, UntilWithoutRetry, WaitResource.conditionFunc, hx, hk,
      if_false]
    simp only [List.append_eq] at hrec ⊢
    rw [hrec]
    simp

theorem UntilWithoutRetry_first_match (checker : Obj → Option Bool) (pre : List Event)
    (e : Event) (rest : List Event) (l : Option Event)
    (hkinds : ∀ x ∈ pre, x.Type_ ≠ EventType.Error)
    (hpre : ∀ x ∈ pre, checker x.Object = some false)
    (hkind : e.Type_ ≠ EventType.Error) (he : checker e.Object = some true) :
    UntilWithoutRetry (WaitResource.conditionFunc checker) (pre ++ e :: rest) l =
      { calls := (pre ++ [e]).map Call.Condition, event := some e, result := .returned none } := by
  obtain ⟨l', h⟩ := UntilWithoutRetry_prefix checker pre (e :: rest) l hkinds hpre
  rw [h]
  simp [UntilWithoutRetry, WaitResource.conditionFunc, he, hkind]

theorem UntilWithoutRetry_first_error (checker : Obj → Option Bool) (pre : List Event)
    (e : Event) (rest : List Event) (l : Option Event)
    (hkinds : ∀ x ∈ pre, x.Type_ ≠ EventType.Error)
    (hpre : ∀ x ∈ pre, checker x.Object = some false)
    (herror : e.Type_ = EventType.Error) :
    UntilWithoutRetry (WaitResource.conditionFunc checker) (pre ++ e :: rest) l =
      { calls := pre.map Call.Condition, event := some e,
        result := .returned (some e.carriedError) } := by
  obtain ⟨l', h⟩ := UntilWithoutRetry_prefix checker pre (e :: rest) l hkinds hpre
  rw [h]
  simp [UntilWithoutRetry, herror]

/-- The calls of `WaitResource` up to the driver, once the kind is resolved. -/
theorem WaitResource_resolved (scheme : Scheme) (client : Clientset) (g : Getter) (ns : String)
    (gvk : GroupVersionKind) (listOptions : ListOptions) (checker : Obj → Option Bool)
    (timeout : Nat) (restMapping : RESTMapping) (object : Obj)
    (hmap : DiscoveryRESTMapper.RESTMapping client.GetAPIGroupResources.1 gvk.GroupKind
      gvk.Version = .ok restMapping)
    (hscheme : scheme.New gvk = .ok object) :
    WaitResource scheme client g ns gvk listOptions checker timeout =
      { calls := [Call.Discovery, Call.RESTMapping gvk.GroupKind gvk.Version,
            Call.NewListWatch restMapping.Resource.Resource ns, Call.SchemeNew gvk] ++
          (UntilWithSync timeout (WaitResource.watchlist g restMapping ns listOptions)
            (WaitResource.preConditionFunc checker) (WaitResource.conditionFunc checker)).calls
        result := (UntilWithSync timeout (WaitResource.watchlist g restMapping ns listOptions)
            (WaitResource.preConditionFunc checker) (WaitResource.conditionFunc checker)).result } := by
  simp only [WaitResource, hmap, hscheme]
  cases hr : (UntilWithSync timeout (WaitResource.watchlist g restMapping ns listOptions)
      (WaitResource.preConditionFunc checker) (WaitResource.conditionFunc checker)).result with
  | panicked => simp
  | returned err => cases err <;> simp

/-- The driver when the list answers in time and the precondition fails: one list, one
watch, then the event loop. -/
theorem UntilWithSync_watch (timeout : Nat) (lw : ListWatch)
    (precondition : List Obj → Option (Bool × Option Error))
    (condition : Event → Option (Bool × Option Error))
    (hlisted : lw.snapshot.time < timeout)
    (hpre : precondition lw.snapshot.Items = some (false, none)) :
    UntilWithSync timeout lw precondition condition =
      { calls := [Call.List lw.resource lw.ns lw.listOptions, Call.PreCondition lw.snapshot.Items,
            Call.Watch lw.resource lw.ns (lw.watchOptions lw.snapshot.ResourceVersion)] ++
          (UntilWithoutRetry condition (lw.events timeout) none).calls
        event := (UntilWithoutRetry condition (lw.events timeout) none).event
        result := (UntilWithoutRetry condition (lw.events timeout) none).result } := by
  simp [UntilWithSync, hpre, hlisted]

/-- The driver when the list answers in time and the precondition holds: one list and
nothing else. -/
theorem UntilWithSync_short (timeout : Nat) (lw : ListWatch)
    (precondition : List Obj → Option (Bool × Option Error))
    (condition : Event → Option (Bool × Option Error))
    (hlisted : lw.snapshot.time < timeout)
    (hpre : precondition lw.snapshot.Items = some (true, none)) :
    UntilWithSync timeout lw precondition condition =
      { calls := [Call.List lw.resource lw.ns lw.listOptions, Call.PreCondition lw.snapshot.Items]
        event := none
        result := .returned none } := by
  simp [UntilWithSync, hpre, hlisted]

/-- The driver when the list does not answer before the deadline: `TimeoutError`. -/
theorem UntilWithSync_late (timeout : Nat) (lw : ListWatch)
    (precondition : List Obj → Option (Bool × Option Error))
    (condition : Event → Option (Bool × Option Error))
    (hlate : ¬ lw.snapshot.time < timeout) :
    UntilWithSync timeout lw precondition condition =
      { calls := [Call.List lw.resource lw.ns lw.listOptions]
        event := none
        result := .returned (some .TimeoutError) } := by
  simp [UntilWithSync, hlate]

/-! ## The claims -/

/-- C1: for every store content and every predicate, `preConditionFunc` returns
`(true, nil)` if and only if the store is non-empty and the predicate returns true
on every object of it; on the empty store it returns `(false, nil)`; whatever it
returns, its error is nil; and for a predicate that always returns, it returns
`(b, nil)` with `b` true exactly when the store is non-empty and all objects pass. -/
theorem C1_preConditionFunc_nonempty_and_all (checker : Obj → Option Bool) (c : Obj → Bool)
    (store : List Obj) :
    (WaitResource.preConditionFunc checker store = some (true, none) ↔
        store ≠ [] ∧ ∀ obj ∈ store, checker obj = some true) ∧
    WaitResource.preConditionFunc checker [] = some (false, none) ∧
    (∀ b err, WaitResource.preConditionFunc checker store = some (b, err) → err = none) ∧
    WaitResource.preConditionFunc (fun obj => some (c obj)) store =
      some (!store.isEmpty && store.all c, none) := by
  refine ⟨preConditionFunc_true_iff checker store, by simp [WaitResource.preConditionFunc], ?_, ?_⟩
  · intro b err h
    cases store with
    | nil =>
      simp [WaitResource.preConditionFunc] at h
      exact h.2.symm
    | cons p ps =>
      simp only [WaitResource.preConditionFunc, List.length_cons, Nat.add_one_ne_zero,
        if_false] at h
      exact preConditionFunc_loop_err checker (p :: ps) b err h
  · cases store with
    | nil => simp [WaitResource.preConditionFunc]
    | cons p ps =>
      simp only [WaitResource.preConditionFunc, List.length_cons, Nat.add_one_ne_zero,
        if_false, preConditionFunc_loop_total]
      simp

/-- C9: after the options modifier of `WaitResource` has run on request options, the
label and field selectors of the request are those of the caller and every other
field of the request options is as it was; the list request and the watch request
of the source that `WaitResource` builds carry the selectors of the caller. -/
theorem C9_optionsModifier_selectors_only (listOptions options : ListOptions) (g : Getter)
    (restMapping : RESTMapping) (ns resourceVersion : String) :
    (WaitResource.optionsModifier listOptions options).LabelSelector = listOptions.LabelSelector ∧
    (WaitResource.optionsModifier listOptions options).FieldSelector = listOptions.FieldSelector ∧
    (WaitResource.optionsModifier listOptions options).Kind = options.Kind ∧
    (WaitResource.optionsModifier listOptions options).APIVersion = options.APIVersion ∧
    (WaitResource.optionsModifier listOptions options).Watch = options.Watch ∧
    (WaitResource.optionsModifier listOptions options).AllowWatchBookmarks =
      options.AllowWatchBookmarks ∧
    (WaitResource.optionsModifier listOptions options).ResourceVersion = options.ResourceVersion ∧
    (WaitResource.optionsModifier listOptions options).ResourceVersionMatch =
      options.ResourceVersionMatch ∧
    (WaitResource.optionsModifier listOptions options).TimeoutSeconds = options.TimeoutSeconds ∧
    (WaitResource.optionsModifier listOptions options).Limit = options.Limit ∧
    (WaitResource.optionsModifier listOptions options).Continue = options.Continue ∧
    (WaitResource.watchlist g restMapping ns listOptions).listOptions =
      { ListOptions.zero with
        LabelSelector := listOptions.LabelSelector
        FieldSelector := listOptions.FieldSelector } ∧
    (WaitResource.watchlist g restMapping ns listOptions).watchOptions resourceVersion =
      { ListOptions.zero with
        LabelSelector := listOptions.LabelSelector
        FieldSelector := listOptions.FieldSelector
        ResourceVersion := resourceVersion } := by
  simp [WaitResource.optionsModifier, WaitResource.watchlist, NewFilteredListWatchFromClient,
    ListWatch.listOptions, ListWatch.watchOptions]

/-- C5: when the REST mapper finds no mapping for the kind, `WaitResource` returns
exactly the mapping error, and the only calls made are the discovery fetch and the
mapping: the list/watch source is not constructed, no list or watch call is made and
neither closure that calls the predicate is evaluated. -/
theorem C5_mapping_error_before_list (scheme : Scheme) (client : Clientset) (g : Getter)
    (ns : String) (gvk : GroupVersionKind) (listOptions : ListOptions)
    (checker : Obj → Option Bool) (timeout : Nat) (err : Error)
    (hmap : DiscoveryRESTMapper.RESTMapping client.GetAPIGroupResources.1 gvk.GroupKind
      gvk.Version = .error err) :
    (WaitResource scheme client g ns gvk listOptions checker timeout).result =
      .returned (some err) ∧
    (WaitResource scheme client g ns gvk listOptions checker timeout).calls =
      [Call.Discovery, Call.RESTMapping gvk.GroupKind gvk.Version] ∧
    ∀ call ∈ (WaitResource scheme client g ns gvk listOptions checker timeout).calls,
      call.isNewListWatch = false ∧ call.isList = false ∧ call.isWatch = false ∧
        call.callsChecker = false := by
  simp [WaitResource, hmap, Call.isNewListWatch, Call.isList, Call.isWatch, Call.callsChecker]

/-- Witness of C5: the kind `Widget` of group `example.io` in a cluster that serves only pods. -/
theorem C5_mapping_error_before_list_witness :
    DiscoveryRESTMapper.RESTMapping (clientWith coreGroupResources none).GetAPIGroupResources.1
        (GroupVersionKind.GroupKind { Group := "example.io", Version := "v1", Kind := "Widget" })
        "v1" =
      .error (.ResolutionError "no matches for kind Widget in group example.io") ∧
    (WaitResource podScheme (clientWith coreGroupResources none)
        (fixedGetter [podInPhase "Running"] []) "ns1"
        { Group := "example.io", Version := "v1", Kind := "Widget" } webSelector isRunning
        2).result =
      .returned (some (.ResolutionError "no matches for kind Widget in group example.io")) :=
  ⟨by rfl,
    (C5_mapping_error_before_list podScheme (clientWith coreGroupResources none)
      (fixedGetter [podInPhase "Running"] []) "ns1"
      { Group := "example.io", Version := "v1", Kind := "Widget" } webSelector isRunning 2
      (.ResolutionError "no matches for kind Widget in group example.io") (by rfl)).1⟩

/-- C2: once the kind is resolved, when the list answers with no object and the
subscription delivers no event before the deadline, `WaitResource` returns
`TimeoutError` and not success, whatever the predicate is; the predicate is not
called on any event. -/
theorem C2_empty_set_times_out (scheme : Scheme) (client : Clientset) (g : Getter)
    (ns : String) (gvk : GroupVersionKind) (listOptions : ListOptions)
    (checker : Obj → Option Bool) (timeout : Nat) (restMapping : RESTMapping) (object : Obj)
    (hmap : DiscoveryRESTMapper.RESTMapping client.GetAPIGroupResources.1 gvk.GroupKind
      gvk.Version = .ok restMapping)
    (hscheme : scheme.New gvk = .ok object)
    (hempty : (WaitResource.watchlist g restMapping ns listOptions).snapshot.Items = [])
    (hquiet : (WaitResource.watchlist g restMapping ns listOptions).events timeout = []) :
    (WaitResource scheme client g ns gvk listOptions checker timeout).result =
      .returned (some .TimeoutError) ∧
    (WaitResource scheme client g ns gvk listOptions checker timeout).result ≠
      .returned none ∧
    ∀ call ∈ (WaitResource scheme client g ns gvk listOptions checker timeout).calls,
      call.isCondition = false := by
  have hpre : WaitResource.preConditionFunc checker
      (WaitResource.watchlist g restMapping ns listOptions).snapshot.Items = some (false, none) := by
    rw [hempty]
    simp [WaitResource.preConditionFunc]
  by_cases hlisted : (WaitResource.watchlist g restMapping ns listOptions).snapshot.time < timeout
  · rw [WaitResource_resolved scheme client g ns gvk listOptions checker timeout restMapping
      object hmap hscheme, UntilWithSync_watch timeout _ _ _ hlisted hpre, hquiet]
    simp [UntilWithoutRetry, Call.isCondition]
  · rw [WaitResource_resolved scheme client g ns gvk listOptions checker timeout restMapping
      object hmap hscheme, UntilWithSync_late timeout _ _ _ hlisted]
    simp [Call.isCondition]

/-- Witness of C2: namespace `ns2`, no pod listed, the only event arrives at time 3,
the deadline is 2. -/
theorem C2_empty_set_times_out_witness :
    (WaitResource.watchlist (fixedGetter [] [⟨3, podEvent .Added "Running"⟩])
        { Resource := { Group := "", Version := "v1", Resource := "pods" },
          GroupVersionKind := podKind } "ns2" webSelector).snapshot.Items = [] ∧
    (WaitResource.watchlist (fixedGetter [] [⟨3, podEvent .Added "Running"⟩])
        { Resource := { Group := "", Version := "v1", Resource := "pods" },
          GroupVersionKind := podKind } "ns2" webSelector).events 2 = [] ∧
    (WaitResource podScheme (clientWith coreGroupResources none)
        (fixedGetter [] [⟨3, podEvent .Added "Running"⟩]) "ns2" podKind webSelector isRunning
        2).result = .returned (some .TimeoutError) :=
  ⟨by rfl, by rfl,
    (C2_empty_set_times_out podScheme (clientWith coreGroupResources none)
      (fixedGetter [] [⟨3, podEvent .Added "Running"⟩]) "ns2" podKind webSelector isRunning 2
      { Resource := { Group := "", Version := "v1", Resource := "pods" },
        GroupVersionKind := podKind }
      (.Pod { Namespace := "", Name := "", Phase := "" }) (by rfl) (by rfl) (by rfl) (by rfl)).1⟩

/-- C3: once the kind is resolved and the list has answered before the deadline, when
the precondition fails on the snapshot and the events delivered are
`pre ++ e :: rest`, none of `pre` and `e` of kind `Error`, with the predicate false
on the object of every event of `pre` and true on the object of `e`,
`WaitResource` returns success with `e` as last event, the per-event condition is
evaluated on the events of `pre` and on `e` and on no event of `rest`, and the
condition on any event is the predicate on that event's object with a nil error. -/
theorem C3_success_at_first_satisfying_event (scheme : Scheme) (client : Clientset)
    (g : Getter) (ns : String) (gvk : GroupVersionKind) (listOptions : ListOptions)
    (checker : Obj → Option Bool) (timeout : Nat) (restMapping : RESTMapping) (object : Obj)
    (pre : List Event) (e : Event) (rest : List Event)
    (hmap : DiscoveryRESTMapper.RESTMapping client.GetAPIGroupResources.1 gvk.GroupKind
      gvk.Version = .ok restMapping)
    (hscheme : scheme.New gvk = .ok object)
    (hlisted : (WaitResource.watchlist g restMapping ns listOptions).snapshot.time < timeout)
    (hfail : WaitResource.preConditionFunc checker
      (WaitResource.watchlist g restMapping ns listOptions).snapshot.Items = some (false, none))
    (hevents : (WaitResource.watchlist g restMapping ns listOptions).events timeout =
      pre ++ e :: rest)
    (hkinds : ∀ x ∈ pre, x.Type_ ≠ EventType.Error)
    (hpre : ∀ x ∈ pre, checker x.Object = some false)
    (hkind : e.Type_ ≠ EventType.Error)
    (he : checker e.Object = some true) :
    (WaitResource scheme client g ns gvk listOptions checker timeout).result = .returned none ∧
    (WaitResource scheme client g ns gvk listOptions checker timeout).calls.filter
        Call.isCondition = (pre ++ [e]).map Call.Condition ∧
    (UntilWithSync timeout (WaitResource.watchlist g restMapping ns listOptions)
        (WaitResource.preConditionFunc checker) (WaitResource.conditionFunc checker)).event =
      some e ∧
    ∀ ev : Event, WaitResource.conditionFunc checker ev =
      (checker ev.Object).map (fun b => (b, none)) := by
  have hloop := UntilWithoutRetry_first_match checker pre e rest none hkinds hpre hkind he
  refine ⟨?_, ?_, ?_, ?_⟩
  · rw [WaitResource_resolved scheme client g ns gvk listOptions checker timeout restMapping
      object hmap hscheme, UntilWithSync_watch timeout _ _ _ hlisted hfail, hevents, hloop]
  · rw [WaitResource_resolved scheme client g ns gvk listOptions checker timeout restMapping
      object hmap hscheme, UntilWithSync_watch timeout _ _ _ hlisted hfail, hevents, hloop]
    simp only [List.filter_append, List.filter_cons, List.filter_nil, Call.isCondition]
    simp only [Bool.false_eq_true, if_false, List.nil_append]
    rw [List.filter_eq_self.mpr]
    intro c hc
    obtain ⟨x, _, rfl⟩ := List.mem_map.mp hc
    rfl
  · rw [UntilWithSync_watch timeout _ _ _ hlisted hfail, hevents, hloop]
  · intro ev
    cases h : checker ev.Object <;> simp [WaitResource.conditionFunc, h]

/-- Witness of C3: one pod listed as `Pending`, an `Added` event for it, then a
`Modified` event with phase `Running`; the predicate is `state == "Running"`. -/
theorem C3_success_at_first_satisfying_event_witness :
    (WaitResource.watchlist
        (fixedGetter [podInPhase "Pending"]
          [⟨0, podEvent .Added "Pending"⟩, ⟨1, podEvent .Modified "Running"⟩])
        { Resource := { Group := "", Version := "v1", Resource := "pods" },
          GroupVersionKind := podKind } "ns1" webSelector).events 5 =
      [podEvent .Added "Pending"] ++ podEvent .Modified "Running" :: [] ∧
    (WaitResource podScheme (clientWith coreGroupResources none)
        (fixedGetter [podInPhase "Pending"]
          [⟨0, podEvent .Added "Pending"⟩, ⟨1, podEvent .Modified "Running"⟩])
        "ns1" podKind webSelector isRunning 5).result = .returned none ∧
    (UntilWithSync 5
        (WaitResource.watchlist
          (fixedGetter [podInPhase "Pending"]
            [⟨0, podEvent .Added "Pending"⟩, ⟨1, podEvent .Modified "Running"⟩])
          { Resource := { Group := "", Version := "v1", Resource := "pods" },
            GroupVersionKind := podKind } "ns1" webSelector)
        (WaitResource.preConditionFunc isRunning) (WaitResource.conditionFunc isRunning)).event =
      some (podEvent .Modified "Running") :=
  have h := C3_success_at_first_satisfying_event podScheme (clientWith coreGroupResources none)
    (fixedGetter [podInPhase "Pending"]
      [⟨0, podEvent .Added "Pending"⟩, ⟨1, podEvent .Modified "Running"⟩])
    "ns1" podKind webSelector isRunning 5
    { Resource := { Group := "", Version := "v1", Resource := "pods" },
      GroupVersionKind := podKind }
    (.Pod { Namespace := "", Name := "", Phase := "" })
    [podEvent .Added "Pending"] (podEvent .Modified "Running") []
    (by rfl) (by rfl) (by decide) (by rfl) (by rfl) (by decide) (by decide) (by decide) (by rfl)
  ⟨by rfl, h.1, h.2.2.1⟩

/-- C4: once the kind is resolved, the list has answered before the deadline and the
precondition has failed, when the events delivered are `pre ++ e :: rest` with `e`
of kind `Error` and the wait still running when `e` arrives (no event of `pre` is
of kind `Error` and the predicate is false on the object of each), `WaitResource`
returns the error carried by `e`, a non-nil error and not success, whatever the
predicate does on the payload of `e`: the per-event condition is evaluated on the
events of `pre` only, not on `e` and not on any event of `rest`. -/
theorem C4_error_event_ends_wait_with_carried_error (scheme : Scheme) (client : Clientset)
    (g : Getter) (ns : String) (gvk : GroupVersionKind) (listOptions : ListOptions)
    (checker : Obj → Option Bool) (timeout : Nat) (restMapping : RESTMapping) (object : Obj)
    (pre : List Event) (e : Event) (rest : List Event)
    (hmap : DiscoveryRESTMapper.RESTMapping client.GetAPIGroupResources.1 gvk.GroupKind
      gvk.Version = .ok restMapping)
    (hscheme : scheme.New gvk = .ok object)
    (hlisted : (WaitResource.watchlist g restMapping ns listOptions).snapshot.time < timeout)
    (hfail : WaitResource.preConditionFunc checker
      (WaitResource.watchlist g restMapping ns listOptions).snapshot.Items = some (false, none))
    (hevents : (WaitResource.watchlist g restMapping ns listOptions).events timeout =
      pre ++ e :: rest)
    (hkinds : ∀ x ∈ pre, x.Type_ ≠ EventType.Error)
    (hpre : ∀ x ∈ pre, checker x.Object = some false)
    (herror : e.Type_ = EventType.Error) :
    (WaitResource scheme client g ns gvk listOptions checker timeout).result =
      .returned (some e.carriedError) ∧
    (WaitResource scheme client g ns gvk listOptions checker timeout).result ≠ .returned none ∧
    (WaitResource scheme client g ns gvk listOptions checker timeout).calls.filter
        Call.isCondition = pre.map Call.Condition := by
  have hloop := UntilWithoutRetry_first_error checker pre e rest none hkinds hpre herror
  rw [WaitResource_resolved scheme client g ns gvk listOptions checker timeout restMapping
    object hmap hscheme, UntilWithSync_watch timeout _ _ _ hlisted hfail, hevents, hloop]
  refine ⟨rfl, by simp, ?_⟩
  simp only [List.filter_append, List.filter_cons, List.filter_nil, Call.isCondition]
  simp only [Bool.false_eq_true, if_false, List.nil_append]
  rw [List.filter_eq_self.mpr]
  intro c hc
  obtain ⟨x, _, rfl⟩ := List.mem_map.mp hc
  rfl

/-- Witness of C4: one pod listed as `Pending`, an `Added` event for it, then the
`Error` event of a stale watch, then a `Modified` event with phase `Running` that
is never reached; the predicate holds on every object, the payload of the `Error`
event included, except on a `Pending` pod. -/
theorem C4_error_event_ends_wait_with_carried_error_witness :
    staleWatchEvent.Type_ = EventType.Error ∧
    notPending staleWatchEvent.Object = some true ∧
    (WaitResource podScheme (clientWith coreGroupResources none)
        (fixedGetter [podInPhase "Pending"]
          [⟨0, podEvent .Added "Pending"⟩, ⟨1, staleWatchEvent⟩,
            ⟨2, podEvent .Modified "Running"⟩])
        "ns1" podKind webSelector notPending 5).result =
      .returned (some (.TransportError "too old resource version")) :=
  ⟨rfl, rfl,
    (C4_error_event_ends_wait_with_carried_error podScheme (clientWith coreGroupResources none)
      (fixedGetter [podInPhase "Pending"]
        [⟨0, podEvent .Added "Pending"⟩, ⟨1, staleWatchEvent⟩,
          ⟨2, podEvent .Modified "Running"⟩])
      "ns1" podKind webSelector notPending 5
      { Resource := { Group := "", Version := "v1", Resource := "pods" },
        GroupVersionKind := podKind }
      (.Pod { Namespace := "", Name := "", Phase := "" })
      [podEvent .Added "Pending"] staleWatchEvent [podEvent .Modified "Running"]
      (by rfl) (by rfl) (by decide) (by rfl) (by rfl) (by decide) (by decide) rfl).1⟩

/-- C6, refuted as stated: the discovery fetch fails with a transport error and returns
no group resources; `WaitResource` fails, but with the mapping error of the kind and
not with the discovery failure. -/
theorem C6_discovery_failure_not_returned :
    (clientWith [] (some (.TransportError "discovery: connection refused"))).GetAPIGroupResources =
      ([], some (.TransportError "discovery: connection refused")) ∧
    (WaitResource podScheme
        (clientWith [] (some (.TransportError "discovery: connection refused")))
        (fixedGetter [podInPhase "Running"] []) "ns1" podKind webSelector isRunning 2).result =
      .returned (some (.ResolutionError "no matches for kind Pod in group ")) ∧
    (WaitResource podScheme
        (clientWith [] (some (.TransportError "discovery: connection refused")))
        (fixedGetter [podInPhase "Running"] []) "ns1" podKind webSelector isRunning 2).result ≠
      .returned (some (.TransportError "discovery: connection refused")) := by
  refine ⟨rfl, by rfl, ?_⟩
  have h : (WaitResource podScheme
        (clientWith [] (some (.TransportError "discovery: connection refused")))
        (fixedGetter [podInPhase "Running"] []) "ns1" podKind webSelector isRunning 2).result =
      .returned (some (.ResolutionError "no matches for kind Pod in group ")) := by rfl
  rw [h]
  simp

/-- C6, amended: the error of the discovery fetch is discarded. The run of
`WaitResource` is the same as if the fetch had returned the same group resources
without an error; when the failed fetch returned no group resources, `WaitResource`
fails with the mapping error of the kind (`ResolutionError`), and makes no call
after the mapping. -/
theorem C6_discovery_error_discarded (scheme : Scheme) (groupResources : List APIGroupResources)
    (discoveryErr : Error) (core g : Getter) (ns : String) (gvk : GroupVersionKind)
    (listOptions : ListOptions) (checker : Obj → Option Bool) (timeout : Nat) :
    WaitResource scheme
        { GetAPIGroupResources := (groupResources, some discoveryErr), CoreV1RESTClient := core }
        g ns gvk listOptions checker timeout =
      WaitResource scheme
        { GetAPIGroupResources := (groupResources, none), CoreV1RESTClient := core }
        g ns gvk listOptions checker timeout ∧
    (WaitResource scheme
        { GetAPIGroupResources := ([], some discoveryErr), CoreV1RESTClient := core }
        g ns gvk listOptions checker timeout).result =
      .returned (some (.ResolutionError
        ("no matches for kind " ++ gvk.Kind ++ " in group " ++ gvk.Group))) ∧
    (WaitResource scheme
        { GetAPIGroupResources := ([], some discoveryErr), CoreV1RESTClient := core }
        g ns gvk listOptions checker timeout).calls =
      [Call.Discovery, Call.RESTMapping gvk.GroupKind gvk.Version] := by
  refine ⟨rfl, ?_, ?_⟩ <;>
    simp [WaitResource, DiscoveryRESTMapper.RESTMapping, GroupVersionKind.GroupKind]

/-- C7: once the kind is resolved and the list has answered before the deadline, when
the snapshot is non-empty and the predicate returns true on every object of it,
`WaitResource` returns success; the calls after
the setup are one list call and the evaluation of the precondition: exactly one
list call, no watch call, and the per-event condition is never evaluated. -/
theorem C7_satisfied_snapshot_short_circuits (scheme : Scheme) (client : Clientset)
    (g : Getter) (ns : String) (gvk : GroupVersionKind) (listOptions : ListOptions)
    (checker : Obj → Option Bool) (timeout : Nat) (restMapping : RESTMapping) (object : Obj)
    (hmap : DiscoveryRESTMapper.RESTMapping client.GetAPIGroupResources.1 gvk.GroupKind
      gvk.Version = .ok restMapping)
    (hscheme : scheme.New gvk = .ok object)
    (hlisted : (WaitResource.watchlist g restMapping ns listOptions).snapshot.time < timeout)
    (hnonempty : (WaitResource.watchlist g restMapping ns listOptions).snapshot.Items ≠ [])
    (hall : ∀ obj ∈ (WaitResource.watchlist g restMapping ns listOptions).snapshot.Items,
      checker obj = some true) :
    (WaitResource scheme client g ns gvk listOptions checker timeout).result = .returned none ∧
    (WaitResource scheme client g ns gvk listOptions checker timeout).calls =
      [Call.Discovery, Call.RESTMapping gvk.GroupKind gvk.Version,
        Call.NewListWatch restMapping.Resource.Resource ns, Call.SchemeNew gvk,
        Call.List restMapping.Resource.Resource ns
          (WaitResource.optionsModifier listOptions ListOptions.zero),
        Call.PreCondition (WaitResource.watchlist g restMapping ns listOptions).snapshot.Items] ∧
    ((WaitResource scheme client g ns gvk listOptions checker timeout).calls.filter
        Call.isList).length = 1 ∧
    ((WaitResource scheme client g ns gvk listOptions checker timeout).calls.filter
        Call.isWatch).length = 0 ∧
    (WaitResource scheme client g ns gvk listOptions checker timeout).calls.filter
        Call.isCondition = [] := by
  have hpre := (preConditionFunc_true_iff checker _).mpr ⟨hnonempty, hall⟩
  rw [WaitResource_resolved scheme client g ns gvk listOptions checker timeout restMapping object
    hmap hscheme, UntilWithSync_short timeout _ _ _ hlisted hpre]
  simp [WaitResource.watchlist, NewFilteredListWatchFromClient, ListWatch.listOptions,
    Call.isList, Call.isWatch, Call.isCondition]

/-- Witness of C7: one pod listed, already `Running`; the stream holds a later event
that is never consumed. -/
theorem C7_satisfied_snapshot_short_circuits_witness :
    (WaitResource.watchlist (fixedGetter [podInPhase "Running"] [⟨0, podEvent .Deleted "Running"⟩])
        { Resource := { Group := "", Version := "v1", Resource := "pods" },
          GroupVersionKind := podKind } "ns1" webSelector).snapshot.Items =
      [podInPhase "Running"] ∧
    (WaitResource podScheme (clientWith coreGroupResources none)
        (fixedGetter [podInPhase "Running"] [⟨0, podEvent .Deleted "Running"⟩])
        "ns1" podKind webSelector isRunning 5).result = .returned none ∧
    ((WaitResource podScheme (clientWith coreGroupResources none)
        (fixedGetter [podInPhase "Running"] [⟨0, podEvent .Deleted "Running"⟩])
        "ns1" podKind webSelector isRunning 5).calls.filter Call.isWatch).length = 0 :=
  have h := C7_satisfied_snapshot_short_circuits podScheme (clientWith coreGroupResources none)
    (fixedGetter [podInPhase "Running"] [⟨0, podEvent .Deleted "Running"⟩])
    "ns1" podKind webSelector isRunning 5
    { Resource := { Group := "", Version := "v1", Resource := "pods" },
      GroupVersionKind := podKind }
    (.Pod { Namespace := "", Name := "", Phase := "" })
    (by rfl) (by rfl) (by decide) (by decide) (by decide)
  ⟨by rfl, h.1, h.2.2.2.1⟩

/-- C8: `WaitPod` is `WaitResource` on the core-v1 REST client of the same client, the
kind with empty group, version `v1` and kind `Pod`, the same namespace, options
and timeout, and the adapted predicate; the adapted predicate is the caller's
predicate on every Pod; whenever it returns a boolean the object is a Pod and
the boolean is the caller's verdict on that Pod; on an object that is not a Pod it
returns no boolean (the type assertion panics). -/
theorem C8_WaitPod_is_WaitResource_on_pods (scheme : Scheme) (client : Clientset) (ns : String)
    (listOptions : ListOptions) (checker : Pod → Option Bool) (timeout : Nat) :
    WaitPod scheme client ns listOptions checker timeout =
      WaitResource scheme client client.CoreV1RESTClient ns
        { Group := "", Version := "v1", Kind := "Pod" } listOptions
        (WaitPod.adapter checker) timeout ∧
    (∀ pod : Pod, WaitPod.adapter checker (.Pod pod) = checker pod) ∧
    (∀ (i : Obj) (b : Bool), WaitPod.adapter checker i = some b →
      ∃ pod : Pod, i = .Pod pod ∧ checker pod = some b) ∧
    (∀ message : String, WaitPod.adapter checker (.Status message) = none) ∧
    (∀ kind name state : String, WaitPod.adapter checker (.Other kind name state) = none) := by
  refine ⟨rfl, fun _ => rfl, ?_, fun _ => rfl, fun _ _ _ => rfl⟩
  intro i b h
  cases i with
  | Pod pod => exact ⟨pod, rfl, h⟩
  | Status message => simp [WaitPod.adapter] at h
  | Other kind name state => simp [WaitPod.adapter] at h

/-- C10, on the code: `GetNamespaceAndNameFromObjectMeta` returns
`(v.Namespace, v.Name, nil)` when `GetObjectMetaData` returns a non-nil `v`, and
panics when it returns nil. On a channel, which `Marshal` rejects, and on a string,
whose document `Unmarshal` rejects, `GetObjectMetaData` returns nil and
`GetNamespaceAndNameFromObjectMeta` panics instead of returning; on an object with
metadata it returns the namespace, the name and a nil error. -/
theorem C10_nil_metadata_panics {α β : Type} (codec : Codec α β) (obj : α) :
    GetNamespaceAndNameFromObjectMeta codec obj =
      (GetObjectMetaData codec obj).map (fun v => (v.Namespace, v.Name, none)) ∧
    GetObjectMetaData valueCodec GoValue.Chan = none ∧
    GetNamespaceAndNameFromObjectMeta valueCodec GoValue.Chan = none ∧
    GetObjectMetaData valueCodec (GoValue.Str "x") = none ∧
    GetNamespaceAndNameFromObjectMeta valueCodec (GoValue.Str "x") = none ∧
    GetNamespaceAndNameFromObjectMeta valueCodec (GoValue.Object "ns1" "web-0") =
      some ("ns1", "web-0", none) := by
  refine ⟨?_, rfl, rfl, rfl, rfl, rfl⟩
  cases h : GetObjectMetaData codec obj <;> simp [GetNamespaceAndNameFromObjectMeta, h]

end K8sutils
